import Mathlib

/-!
Verification of the booking transaction engine of `busla/booking-platform`.

The engine is shallowly embedded: calendar dates are integer day numbers,
money amounts are integers in minor currency units (cents), and the two
durable tables (availability calendar keyed by date, reservation store keyed
by reservation id) are association lists.  DynamoDB semantics are embedded
explicitly: a conditional put or update is a no-op returning failure when its
condition does not hold, and `transact_write` checks every condition against
the pre-state and applies all writes only when every condition holds.

Sources embedded:
- `src/backend/shared/src/shared/tools/reservations.py`
  (`create_reservation`, `modify_reservation`, `cancel_reservation`);
- `src/backend/shared/src/shared/tools/pricing.py`
  (`_get_applicable_pricing`, `_get_default_pricing`, `get_pricing`,
  `calculate_total`);
- `src/backend/shared/src/shared/services/booking.py`
  (`BookingService.create_reservation`, `confirm_reservation`,
  `cancel_reservation`);
- `src/backend/src/services/dynamodb.py` (store primitive semantics).

`shared/services/availability.py` and `shared/services/pricing.py` are not in
the source tree; where `BookingService` calls them they are modelled from the
spec (see the `svc_` definitions below).
-/

namespace Booking

/-- Availability status of a calendar date (`AvailabilityStatus` enum). -/
inductive AvailStatus where
  | available
  | booked
  | blocked
deriving DecidableEq

/-- Reservation lifecycle status (`ReservationStatus` enum). -/
inductive ResStatus where
  | pending
  | confirmed
  | cancelled
  | completed
deriving DecidableEq

/-- Payment status (`PaymentStatus` enum).  `partRefund` embeds the
source's PARTIAL_REFUND value. -/
inductive PayStatus where
  | pending
  | paid
  | refunded
  | partRefund
  | cancelled
deriving DecidableEq

/-- One availability-table item: status plus the owning reservation id
(absent unless booked). -/
structure AvailEntry where
  status : AvailStatus
  reservation_id : Option String
deriving DecidableEq

/-- A reservation record as stored in the reservations table.  Wall-clock
timestamps (`created_at`, `updated_at`, `cancelled_at`) are omitted: no claim
depends on them. -/
structure Reservation where
  reservation_id : String
  customer_id : String
  check_in : Int
  check_out : Int
  num_adults : Int
  num_children : Int
  status : ResStatus
  payment_status : PayStatus
  total_amount : Int
  cleaning_fee : Int
  nightly_rate : Int
  nights : Int
  special_requests : Option String
  cancellation_reason : Option String
  refund_amount : Option Int
deriving DecidableEq

/-- A seasonal pricing record (`Pricing` model); only active records are kept
in the store, mirroring the `is_active = "true"` query. -/
structure Pricing where
  season_id : String
  season_name : String
  start_date : Int
  end_date : Int
  nightly_rate : Int
  minimum_nights : Int
  cleaning_fee : Int
deriving DecidableEq

/-- The availability table: association list from date to entry. -/
abbrev Calendar := List (Int × AvailEntry)

/-- The reservations table: association list from reservation id to record. -/
abbrev ResTable := List (String × Reservation)

/-- The durable store: availability calendar, reservation table, and the
active seasonal pricing records (in query-result order). -/
structure Store where
  availability : Calendar
  reservations : ResTable
  pricing : List Pricing
deriving DecidableEq

/-- Look up the availability entry for a date (`get_item` on the
availability table). -/
def lookupDate : Calendar → Int → Option AvailEntry
  | [], _ => none
  | (d, e) :: rest, k => if d = k then some e else lookupDate rest k

/-- Overwrite-or-insert the availability entry for a date (`put_item` /
unconditional upsert on the availability table). -/
def putDate : Calendar → Int → AvailEntry → Calendar
  | [], k, v => [(k, v)]
  | (d, e) :: rest, k, v =>
      if d = k then (k, v) :: rest else (d, e) :: putDate rest k v

/-- Look up a reservation record (`get_item` on the reservations table). -/
def lookupRes : ResTable → String → Option Reservation
  | [], _ => none
  | (i, r) :: rest, k => if i = k then some r else lookupRes rest k

/-- Overwrite-or-insert a reservation record (`put_item` on the
reservations table). -/
def putRes : ResTable → String → Reservation → ResTable
  | [], k, v => [(k, v)]
  | (i, r) :: rest, k, v =>
      if i = k then (k, v) :: rest else (i, r) :: putRes rest k v

/-- `_date_range(start, end)`: the dates from `start` up to but excluding
`end`; empty when `end ≤ start`. -/
def dateRange (start stop : Int) : List Int :=
  (List.range (stop - start).toNat).map (fun (i : Nat) => start + (i : Int))

theorem lookupDate_putDate (c : Calendar) (k x : Int) (v : AvailEntry) :
    lookupDate (putDate c k v) x = if k = x then some v else lookupDate c x := by
  induction c with
  | nil => simp [putDate, lookupDate]
  | cons hd tl ih =>
      obtain ⟨d, e⟩ := hd
      simp only [putDate]
      by_cases hdk : d = k
      · subst hdk
        simp only [if_pos rfl, lookupDate]
        by_cases hdx : d = x
        · simp [hdx]
        · simp [hdx]
      · simp only [if_neg hdk, lookupDate]
        by_cases hdx : d = x
        · subst hdx
          have hkx : ¬ k = d := fun h => hdk h.symm
          simp [hkx]
        · simp [hdx, ih]

theorem lookupRes_putRes (t : ResTable) (k x : String) (v : Reservation) :
    lookupRes (putRes t k v) x = if k = x then some v else lookupRes t x := by
  induction t with
  | nil => simp [putRes, lookupRes]
  | cons hd tl ih =>
      obtain ⟨i, r⟩ := hd
      simp only [putRes]
      by_cases hik : i = k
      · subst hik
        simp only [if_pos rfl, lookupRes]
        by_cases hix : i = x
        · simp [hix]
        · simp [hix]
      · simp only [if_neg hik, lookupRes]
        by_cases hix : i = x
        · subst hix
          have hki : ¬ k = i := fun h => hik h.symm
          simp [hki]
        · simp [hix, ih]

/-- Writing the same value at every date of a list, left to right
(the per-date writes of a batch): the lookup afterwards is the written value
on the list and unchanged elsewhere. -/
theorem lookupDate_foldl_putDate (ds : List Int) (c : Calendar)
    (v : AvailEntry) (x : Int) :
    lookupDate (ds.foldl (fun acc d => putDate acc d v) c) x =
      if x ∈ ds then some v else lookupDate c x := by
  induction ds generalizing c with
  | nil => simp
  | cons d tl ih =>
      simp only [List.foldl_cons, ih, List.mem_cons, lookupDate_putDate]
      by_cases hx : x ∈ tl
      · simp [hx]
      · by_cases hdx : d = x
        · simp [hdx, hx]
        · have hxd : ¬ x = d := fun h => hdx h.symm
          simp [hx, hdx, hxd]

theorem mem_dateRange {start stop x : Int} :
    x ∈ dateRange start stop ↔ start ≤ x ∧ x < stop := by
  unfold dateRange
  constructor
  · intro hx
    obtain ⟨i, hi, hix⟩ := List.mem_map.mp hx
    have hi' : i < (stop - start).toNat := List.mem_range.mp hi
    omega
  · intro h
    refine List.mem_map.mpr ⟨(x - start).toNat, List.mem_range.mpr ?_, ?_⟩
    · omega
    · omega

/-! ## Pricing resolver (`shared/tools/pricing.py`) -/

/-- `_get_applicable_pricing(check_in, check_out)`: scan the active pricing
records in query order and return the first whose inclusive
`[start_date, end_date]` range contains the check-in date.  The check-out
date is ignored by the source (season is resolved from check-in only). -/
def get_applicable_pricing (seasons : List Pricing) (check_in : Int) :
    Option Pricing :=
  seasons.find? (fun p => decide (p.start_date ≤ check_in ∧ check_in ≤ p.end_date))

/-- `_get_default_pricing()`: the synthetic default season used when no
seasonal pricing record matches.  `today` stands for `date.today()`. -/
def get_default_pricing (today : Int) : Pricing :=
  { season_id := "default"
    season_name := "Standard Season"
    start_date := today
    end_date := today + 365
    nightly_rate := 12000
    minimum_nights := 3
    cleaning_fee := 5000 }

/-- The season-resolution step shared by `get_pricing`, `calculate_total`,
`check_minimum_stay` and `get_minimum_stay_info`: the applicable seasonal
pricing record, falling back to the synthetic default. -/
def resolve_pricing (seasons : List Pricing) (today check_in : Int) : Pricing :=
  (get_applicable_pricing seasons check_in).getD (get_default_pricing today)

/-- Result of the pricing tools `get_pricing` / `calculate_total`. -/
inductive PriceResult where
  /-- Success: nights, season name, nightly rate, subtotal, cleaning fee,
  total, minimum nights. -/
  | ok (nights : Int) (season_name : String)
      (nightly_rate subtotal cleaning_fee total minimum_nights : Int)
  /-- `check_out ≤ check_in`. -/
  | errInvalidDates
  /-- `MINIMUM_NIGHTS_NOT_MET`: required minimum, nights requested, season. -/
  | errMinimumNights (required requested : Int) (season_name : String)
deriving DecidableEq

/-- Whether a `PriceResult` is a successful price breakdown. -/
def PriceResult.isOk : PriceResult → Bool
  | .ok _ _ _ _ _ _ _ => true
  | _ => false

/-- The total of a successful `PriceResult` (0 on errors). -/
def PriceResult.totalOf : PriceResult → Int
  | .ok _ _ _ _ _ t _ => t
  | _ => 0

/-- `get_pricing(check_in, check_out)` from `shared/tools/pricing.py`
(date-parsing set aside; dates arrive as day numbers). -/
def get_pricing (seasons : List Pricing) (today check_in check_out : Int) :
    PriceResult :=
  if check_out ≤ check_in then .errInvalidDates
  else
    let nights := check_out - check_in
    let pricing := resolve_pricing seasons today check_in
    if nights < pricing.minimum_nights then
      .errMinimumNights pricing.minimum_nights nights pricing.season_name
    else
      let subtotal := pricing.nightly_rate * nights
      .ok nights pricing.season_name pricing.nightly_rate subtotal
        pricing.cleaning_fee (subtotal + pricing.cleaning_fee)
        pricing.minimum_nights

/-- `calculate_total(check_in, check_out)` from `shared/tools/pricing.py`:
same validation, resolution and arithmetic as `get_pricing`; only the shape
of the rendered response differs. -/
def calculate_total (seasons : List Pricing) (today check_in check_out : Int) :
    PriceResult :=
  if check_out ≤ check_in then .errInvalidDates
  else
    let nights := check_out - check_in
    let pricing := resolve_pricing seasons today check_in
    if nights < pricing.minimum_nights then
      .errMinimumNights pricing.minimum_nights nights pricing.season_name
    else
      let subtotal := pricing.nightly_rate * nights
      .ok nights pricing.season_name pricing.nightly_rate subtotal
        pricing.cleaning_fee (subtotal + pricing.cleaning_fee)
        pricing.minimum_nights

/-- `_get_pricing_for_dates(check_in, check_out)` from
`shared/tools/reservations.py`: the fixed pricing the reservation tools use
(12000 cents per night, 5000 cents cleaning), ignoring both arguments and
the season catalog. -/
def get_pricing_for_dates (check_in check_out : Int) : Int × Int :=
  (12000, 5000)

/-! ## Cancellation refund policies -/

/-- The refund computation inlined in `cancel_reservation`
(`shared/tools/reservations.py` lines 754-762): full refund at 30 or more
days before check-in, half (floor division) at 14 or more, else nothing.
Returns (amount, percentage). -/
def refundTool (total_amount days_until_checkin : Int) : Int × Int :=
  if 30 ≤ days_until_checkin then (total_amount, 100)
  else if 14 ≤ days_until_checkin then (Int.fdiv total_amount 2, 50)
  else (0, 0)

/-- The refund computation inlined in `BookingService.cancel_reservation`
(`shared/services/booking.py` lines 286-292): full refund at 14 or more
days before check-in, half at 7 or more, else nothing. -/
def refundService (total_amount days_until : Int) : Int :=
  if 14 ≤ days_until then total_amount
  else if 7 ≤ days_until then Int.fdiv total_amount 2
  else 0

/-! ## Reservation tools (`shared/tools/reservations.py`) -/

/-- `_check_dates_available`: the advisory pre-check.  A date is unavailable
when its calendar item exists with a status other than AVAILABLE; an absent
item counts as available.  Returns the unavailable dates (empty iff all
available). -/
def unavailableDates (c : Calendar) (ds : List Int) : List Int :=
  ds.filter (fun d =>
    match lookupDate c d with
    | none => false
    | some e => decide (e.status ≠ AvailStatus.available))

/-- The per-date transaction condition
`attribute_not_exists(#s) OR #s = :available`: the item is absent or its
status is AVAILABLE. -/
def availCondOK (c : Calendar) (d : Int) : Bool :=
  match lookupDate c d with
  | none => true
  | some e => decide (e.status = AvailStatus.available)

/-- Result of the `create_reservation` tool. -/
inductive CreateResult where
  | ok (r : Reservation)
  /-- `check_out ≤ check_in`. -/
  | errInvalidDates
  /-- `num_adults < 1`. -/
  | errInvalidGuests
  /-- `MAX_GUESTS_EXCEEDED`. -/
  | errMaxGuests (requested : Int)
  /-- `DATES_UNAVAILABLE` from the advisory pre-check. -/
  | errDatesUnavailable (unavailable : List Int)
  /-- `DATES_UNAVAILABLE (booking_conflict)`: the atomic batch was rejected. -/
  | errConflict
deriving DecidableEq

/-- `create_reservation` from `shared/tools/reservations.py` (the engine core
after authentication and customer lookup; the generated reservation id and
the resolved customer id arrive as arguments).  The final step embeds
`transact_write`: the conditional insert of the reservation record plus one
conditional put per stay date, every condition checked against the pre-state
and the writes applied only when all conditions hold. -/
def create_reservation (st : Store) (reservation_id customer_id : String)
    (check_in check_out num_adults num_children : Int)
    (special_requests : Option String) : CreateResult × Store :=
  if check_out ≤ check_in then (.errInvalidDates, st)
  else if num_adults < 1 then (.errInvalidGuests, st)
  else if 6 < num_adults + num_children then
    (.errMaxGuests (num_adults + num_children), st)
  else
    let nights := check_out - check_in
    let dates_to_book := dateRange check_in check_out
    let unavailable := unavailableDates st.availability dates_to_book
    if unavailable ≠ [] then (.errDatesUnavailable unavailable, st)
    else
      let pr := get_pricing_for_dates check_in check_out
      let total_amount := pr.1 * nights + pr.2
      let r : Reservation :=
        { reservation_id, customer_id, check_in, check_out
          num_adults, num_children
          status := .pending, payment_status := .pending
          total_amount, cleaning_fee := pr.2, nightly_rate := pr.1, nights
          special_requests, cancellation_reason := none, refund_amount := none }
      if (lookupRes st.reservations reservation_id).isNone = true ∧
          dates_to_book.all (availCondOK st.availability) = true then
        (.ok r,
          { st with
            reservations := putRes st.reservations reservation_id r
            availability := dates_to_book.foldl
              (fun c d => putDate c d ⟨.booked, some reservation_id⟩)
              st.availability })
      else (.errConflict, st)

/-- Result of the `modify_reservation` tool. -/
inductive ModifyResult where
  | ok (nights new_total old_total price_difference : Int)
  | errNotFound
  /-- Reservation is cancelled or completed. -/
  | errInvalidState
  | errInvalidDates
  | errInvalidGuests
  | errMaxGuests (requested : Int)
  | errDatesUnavailable (unavailable : List Int)
deriving DecidableEq

/-- `modify_reservation` from `shared/tools/reservations.py` (engine core
after authentication and ownership checks).  Mirrors the source faithfully:
the availability pre-check covers only `new_dates − current_dates`; on
success the reservation update, the releases (unconditional upsert to
AVAILABLE) and the claims (unconditional put to BOOKED) are separate
sequential writes, not a conditional transaction; `cleaning_fee` is not
among the updated fields. -/
def modify_reservation (st : Store) (reservation_id : String)
    (new_check_in new_check_out new_num_adults new_num_children : Option Int)
    (new_special_requests : Option String) : ModifyResult × Store :=
  match lookupRes st.reservations reservation_id with
  | none => (.errNotFound, st)
  | some item =>
    if item.status = .cancelled ∨ item.status = .completed then
      (.errInvalidState, st)
    else
      let check_in := new_check_in.getD item.check_in
      let check_out := new_check_out.getD item.check_out
      if check_out ≤ check_in then (.errInvalidDates, st)
      else
        let num_adults := new_num_adults.getD item.num_adults
        let num_children := new_num_children.getD item.num_children
        if num_adults < 1 then (.errInvalidGuests, st)
        else if 6 < num_adults + num_children then
          (.errMaxGuests (num_adults + num_children), st)
        else
          let dates_changing : Bool :=
            decide (check_in ≠ item.check_in ∨ check_out ≠ item.check_out)
          let current_dates := dateRange item.check_in item.check_out
          let new_dates := dateRange check_in check_out
          let dates_to_check := new_dates.filter
            (fun d => decide (d ∉ current_dates))
          let unavailable :=
            if dates_changing then unavailableDates st.availability dates_to_check
            else []
          if unavailable ≠ [] then (.errDatesUnavailable unavailable, st)
          else
            let nights := check_out - check_in
            let pr := get_pricing_for_dates check_in check_out
            let new_total := pr.1 * nights + pr.2
            let old_total := item.total_amount
            let price_difference := new_total - old_total
            let item2 : Reservation :=
              { item with
                check_in, check_out, nights, num_adults, num_children
                total_amount := new_total, nightly_rate := pr.1
                special_requests :=
                  match new_special_requests with
                  | some s => some s
                  | none => item.special_requests }
            let reservations2 := putRes st.reservations reservation_id item2
            let availability2 :=
              if dates_changing then
                let dates_to_release := current_dates.filter
                  (fun d => decide (d ∉ new_dates))
                let a1 := dates_to_release.foldl
                  (fun c d => putDate c d ⟨.available, none⟩) st.availability
                let dates_to_book := new_dates.filter
                  (fun d => decide (d ∉ current_dates))
                dates_to_book.foldl
                  (fun c d => putDate c d ⟨.booked, some reservation_id⟩) a1
              else st.availability
            (.ok nights new_total old_total price_difference,
              { st with reservations := reservations2,
                        availability := availability2 })

/-- Result of the `cancel_reservation` tool. -/
inductive CancelResult where
  | ok (days_until_checkin refund_percentage refund_amount total_amount : Int)
  | errNotFound
  | errAlreadyCancelled
  | errCompleted
  | errAlreadyStarted
deriving DecidableEq

/-- `cancel_reservation` from `shared/tools/reservations.py` (engine core
after authentication and ownership checks; `today` stands for
`date.today()`).  The final transaction (reservation update plus one
unconditional put per stay date back to AVAILABLE) carries no conditions, so
it always succeeds in the store model. -/
def cancel_reservation (st : Store) (today : Int) (reservation_id : String)
    (reason : Option String) : CancelResult × Store :=
  match lookupRes st.reservations reservation_id with
  | none => (.errNotFound, st)
  | some item =>
    if item.status = .cancelled then (.errAlreadyCancelled, st)
    else if item.status = .completed then (.errCompleted, st)
    else
      let days_until_checkin := item.check_in - today
      if item.check_in ≤ today then (.errAlreadyStarted, st)
      else
        let rp := refundTool item.total_amount days_until_checkin
        let item2 : Reservation :=
          { item with
            status := .cancelled
            payment_status := if 0 < rp.1 then .refunded else .cancelled
            cancellation_reason := some (reason.getD "No reason provided")
            refund_amount := some rp.1 }
        let availability2 := (dateRange item.check_in item.check_out).foldl
          (fun c d => putDate c d ⟨.available, none⟩) st.availability
        (.ok days_until_checkin rp.2 rp.1 item.total_amount,
          { st with reservations := putRes st.reservations reservation_id item2,
                    availability := availability2 })

/-! ## BookingService (`shared/services/booking.py`)

`BookingService` delegates to `AvailabilityService` and `PricingService`,
whose files are not in the source tree; those two collaborators are modelled
from the spec below (`svc_` definitions). -/

/-- Modelled from the spec: `shared/services/availability.py` is missing.
Per §4.1, `check_availability(check_in, check_out)` reports whether every
date of `[check_in, check_out)` is claimable — its entry absent (equivalent
to AVAILABLE) or with status AVAILABLE. -/
def svc_check_availability (c : Calendar) (check_in check_out : Int) : Bool :=
  (dateRange check_in check_out).all (availCondOK c)

/-- Modelled from the spec: `shared/services/availability.py` is missing.
Per §4.1 and §5, `book_dates` composes one conditional write per stay date
(`expectedStatus = AVAILABLE`, an absent entry treated as AVAILABLE,
transitioning to BOOKED with the reservation id) into a single
all-or-nothing batch: on any condition failure it reports failure and
leaves the calendar unchanged. -/
def svc_book_dates (c : Calendar) (check_in check_out : Int)
    (reservation_id : String) : Bool × Calendar :=
  let ds := dateRange check_in check_out
  if ds.all (availCondOK c) then
    (true, ds.foldl (fun acc d => putDate acc d ⟨.booked, some reservation_id⟩) c)
  else (false, c)

/-- Modelled from the spec: `shared/services/availability.py` is missing.
Per §4.4 (Cancel, step 4), `release_dates` sets every date of
`[check_in, check_out)` back to AVAILABLE unconditionally. -/
def svc_release_dates (c : Calendar) (check_in check_out : Int) : Calendar :=
  (dateRange check_in check_out).foldl
    (fun acc d => putDate acc d ⟨.available, none⟩) c

/-- Price breakdown of the missing `PricingService.calculate_price` (shape
from `PriceCalculation` in `src/backend/src/models/pricing.py`). -/
structure PriceCalc where
  nights : Int
  nightly_rate : Int
  subtotal : Int
  cleaning_fee : Int
  total_amount : Int
  minimum_nights : Int
  season_name : String
deriving DecidableEq

/-- Modelled from the spec: `shared/services/pricing.py` is missing.  Per
§4.2, `resolveSeason(date)` scans the active seasons for one whose inclusive
range contains the date and otherwise returns a synthetic default season
(fixed rate, 1-year span, minimum 1 night); the fixed default rate is taken
as the source's 12000-cent rate. -/
def svc_resolve_season (seasons : List Pricing) (today d : Int) : Pricing :=
  (seasons.find?
      (fun p => decide (p.start_date ≤ d ∧ d ≤ p.end_date))).getD
    { season_id := "default", season_name := "Default", start_date := today
      end_date := today + 365, nightly_rate := 12000, minimum_nights := 1
      cleaning_fee := 5000 }

/-- Modelled from the spec: `PricingService.calculate_price` per §4.2 —
absent when `check_out ≤ check_in`, otherwise the breakdown computed from
the season governing the check-in date. -/
def svc_calculate_price (seasons : List Pricing) (today check_in check_out : Int) :
    Option PriceCalc :=
  if check_out ≤ check_in then none
  else
    let s := svc_resolve_season seasons today check_in
    let nights := check_out - check_in
    some { nights, nightly_rate := s.nightly_rate
           subtotal := s.nightly_rate * nights
           cleaning_fee := s.cleaning_fee
           total_amount := s.nightly_rate * nights + s.cleaning_fee
           minimum_nights := s.minimum_nights, season_name := s.season_name }

/-- Modelled from the spec: `PricingService.validate_minimum_stay` per §4.2 —
fails when the stay has fewer nights than the governing season's minimum. -/
def svc_validate_minimum_stay (seasons : List Pricing)
    (today check_in check_out : Int) : Bool :=
  decide ((svc_resolve_season seasons today check_in).minimum_nights ≤
    check_out - check_in)

/-- Result of `BookingService.create_reservation`. -/
inductive SvcCreateResult where
  | ok (r : Reservation)
  | errMinimumStay
  | errNoPricing
  | errUnavailable
  /-- `book_dates` reported a conflict. -/
  | errBookingRaced
deriving DecidableEq

/-- `BookingService.create_reservation` from
`shared/services/booking.py`: validates minimum stay, calculates the price,
probes availability, claims the dates through `book_dates`, and then inserts
the reservation record with a separate, unconditional `put_item`.  The
generated reservation id arrives as an argument. -/
def service_create_reservation (st : Store) (today : Int)
    (reservation_id customer_id : String)
    (check_in check_out num_adults num_children : Int)
    (special_requests : Option String) : SvcCreateResult × Store :=
  if svc_validate_minimum_stay st.pricing today check_in check_out = false then
    (.errMinimumStay, st)
  else
    match svc_calculate_price st.pricing today check_in check_out with
    | none => (.errNoPricing, st)
    | some pc =>
      if svc_check_availability st.availability check_in check_out = false then
        (.errUnavailable, st)
      else
        match svc_book_dates st.availability check_in check_out reservation_id with
        | (false, _) => (.errBookingRaced, st)
        | (true, cal2) =>
          let r : Reservation :=
            { reservation_id, customer_id, check_in, check_out
              num_adults, num_children
              status := .pending, payment_status := .pending
              total_amount := pc.total_amount, cleaning_fee := pc.cleaning_fee
              nightly_rate := pc.nightly_rate, nights := pc.nights
              special_requests, cancellation_reason := none
              refund_amount := none }
          (.ok r,
            { st with availability := cal2,
                      reservations := putRes st.reservations reservation_id r })

/-- `BookingService.confirm_reservation` from `shared/services/booking.py`:
an `update_item` guarded by `condition_expression = "#s = :pending"` setting
status to CONFIRMED and payment status to PAID; the condition fails (no
mutation, `False` returned) when the item is absent or its status is not
PENDING. -/
def service_confirm_reservation (st : Store) (reservation_id : String) :
    Bool × Store :=
  match lookupRes st.reservations reservation_id with
  | none => (false, st)
  | some r =>
    if r.status = .pending then
      let r2 : Reservation := { r with status := .confirmed, payment_status := .paid }
      (true, { st with reservations := putRes st.reservations reservation_id r2 })
    else (false, st)

/-- `BookingService.cancel_reservation` from `shared/services/booking.py`:
rejects only an already-CANCELLED reservation; otherwise computes the refund
with the 14/7-day tiers, updates the record with an unconditional
`update_item`, and releases the stay dates. -/
def service_cancel_reservation (st : Store) (today : Int)
    (reservation_id : String) (reason : String) : (Bool × Int) × Store :=
  match lookupRes st.reservations reservation_id with
  | none => ((false, 0), st)
  | some r =>
    if r.status = .cancelled then ((false, 0), st)
    else
      let days_until := r.check_in - today
      let refund_amount := refundService r.total_amount days_until
      let r2 : Reservation :=
        { r with
          status := .cancelled
          cancellation_reason := some reason
          refund_amount := some refund_amount
          payment_status :=
            if refund_amount = r.total_amount then .refunded
            else if 0 < refund_amount then .partRefund
            else r.payment_status }
      ((true, refund_amount),
        { st with
          reservations := putRes st.reservations reservation_id r2
          availability := svc_release_dates st.availability r.check_in r.check_out })

/-! ## Concrete instances used by the counterexamples and witnesses -/

/-- A pending reservation: check-in day 20, check-out day 27,
total 111000 cents (the spec's §8 example amounts). -/
def resPending20 : Reservation :=
  { reservation_id := "RES-1", customer_id := "cust-1"
    check_in := 20, check_out := 27, num_adults := 2, num_children := 0
    status := .pending, payment_status := .pending
    total_amount := 111000, cleaning_fee := 6000, nightly_rate := 15000
    nights := 7, special_requests := none, cancellation_reason := none
    refund_amount := none }

/-- Store holding `resPending20` with its seven dates booked. -/
def store20 : Store :=
  { availability := (dateRange 20 27).map
      (fun d => (d, { status := .booked, reservation_id := some "RES-1" }))
    reservations := [("RES-1", resPending20)]
    pricing := [] }

/-- A completed reservation: check-in day 30, check-out day 32,
total 10000 cents. -/
def resCompleted : Reservation :=
  { reservation_id := "RES-2", customer_id := "cust-1"
    check_in := 30, check_out := 32, num_adults := 2, num_children := 0
    status := .completed, payment_status := .paid
    total_amount := 10000, cleaning_fee := 5000, nightly_rate := 2500
    nights := 2, special_requests := none, cancellation_reason := none
    refund_amount := none }

/-- Store holding only the completed reservation `resCompleted`. -/
def storeCompleted : Store :=
  { availability := [], reservations := [("RES-2", resCompleted)], pricing := [] }

/-- Store with an empty calendar, holding `resPending20` under id RES-1. -/
def storePre : Store :=
  { availability := [], reservations := [("RES-1", resPending20)], pricing := [] }

/-- An active high season: days 100-200, 15000 cents per night,
6000 cents cleaning fee. -/
def seasonHigh : Pricing :=
  { season_id := "high-2025", season_name := "High Season"
    start_date := 100, end_date := 200, nightly_rate := 15000
    minimum_nights := 1, cleaning_fee := 6000 }

/-- Store whose season catalog holds only `seasonHigh`. -/
def storeSeason : Store :=
  { availability := [], reservations := [], pricing := [seasonHigh] }

/-- A pending two-night reservation on days 0-2. -/
def resShort : Reservation :=
  { reservation_id := "RES-1", customer_id := "cust-1"
    check_in := 0, check_out := 2, num_adults := 2, num_children := 0
    status := .pending, payment_status := .pending
    total_amount := 29000, cleaning_fee := 5000, nightly_rate := 12000
    nights := 2, special_requests := none, cancellation_reason := none
    refund_amount := none }

/-- Store where `resShort` holds day 0 but day 1 is BLOCKED (not booked by
any reservation). -/
def storeBlocked : Store :=
  { availability :=
      [(0, { status := .booked, reservation_id := some "RES-1" }),
       (1, { status := .blocked, reservation_id := none })]
    reservations := [("RES-1", resShort)]
    pricing := [] }

/-- A pending reservation on days 0-7 whose stored total (111000) differs
from the fixed-pricing formula (12000 × 7 + 5000 = 89000). -/
def resStale : Reservation :=
  { reservation_id := "RES-1", customer_id := "cust-1"
    check_in := 0, check_out := 7, num_adults := 2, num_children := 0
    status := .pending, payment_status := .pending
    total_amount := 111000, cleaning_fee := 6000, nightly_rate := 15000
    nights := 7, special_requests := none, cancellation_reason := none
    refund_amount := none }

/-- Store holding `resStale` with its dates booked. -/
def storeStale : Store :=
  { availability := (dateRange 0 7).map
      (fun d => (d, { status := .booked, reservation_id := some "RES-1" }))
    reservations := [("RES-1", resStale)]
    pricing := [] }

/-- A cancelled reservation on days 20-22. -/
def resCancelled : Reservation :=
  { reservation_id := "RES-3", customer_id := "cust-1"
    check_in := 20, check_out := 22, num_adults := 2, num_children := 0
    status := .cancelled, payment_status := .refunded
    total_amount := 29000, cleaning_fee := 5000, nightly_rate := 12000
    nights := 2, special_requests := none, cancellation_reason := some "x"
    refund_amount := some 29000 }

/-- Store holding only the cancelled reservation `resCancelled`. -/
def storeCancelled : Store :=
  { availability := [], reservations := [("RES-3", resCancelled)], pricing := [] }

/-- The reservation `create_reservation` builds for a five-night stay on
days 150-155 in `storeSeason` (fixed pricing: 12000·5 + 5000 = 65000). -/
def resCreated9 : Reservation :=
  { reservation_id := "RES-9", customer_id := "cust-2"
    check_in := 150, check_out := 155, num_adults := 2, num_children := 0
    status := .pending, payment_status := .pending
    total_amount := 65000, cleaning_fee := 5000, nightly_rate := 12000
    nights := 5, special_requests := none, cancellation_reason := none
    refund_amount := none }

/-- The record `BookingService.create_reservation` builds for a two-night
stay on days 10-12 (default-season pricing: 12000·2 + 5000 = 29000). -/
def resSvcCreated : Reservation :=
  { reservation_id := "RES-1", customer_id := "cust-2"
    check_in := 10, check_out := 12, num_adults := 2, num_children := 0
    status := .pending, payment_status := .pending
    total_amount := 29000, cleaning_fee := 5000, nightly_rate := 12000
    nights := 2, special_requests := none, cancellation_reason := none
    refund_amount := none }

/-- The empty store. -/
def storeEmpty : Store :=
  { availability := [], reservations := [], pricing := [] }

/-- The record the tools `create_reservation` builds for a two-night stay
on days 0-2 (fixed pricing: 12000·2 + 5000 = 29000). -/
def resCreated7 : Reservation :=
  { reservation_id := "RES-7", customer_id := "cust-3"
    check_in := 0, check_out := 2, num_adults := 2, num_children := 0
    status := .pending, payment_status := .pending
    total_amount := 29000, cleaning_fee := 5000, nightly_rate := 12000
    nights := 2, special_requests := none, cancellation_reason := none
    refund_amount := none }

/-- Store where `resShort` holds days 0-1 and day 3 is booked by another
reservation. -/
def storeBusy : Store :=
  { availability :=
      [(0, { status := .booked, reservation_id := some "RES-1" }),
       (1, { status := .booked, reservation_id := some "RES-1" }),
       (3, { status := .booked, reservation_id := some "RES-X" })]
    reservations := [("RES-1", resShort)]
    pricing := [] }

/-- Whether a `ModifyResult` is the `DATES_UNAVAILABLE` rejection. -/
def ModifyResult.isDatesUnavailable : ModifyResult → Bool
  | .errDatesUnavailable _ => true
  | _ => false

/-- Whether a `CancelResult` is a success. -/
def CancelResult.isOk : CancelResult → Bool
  | .ok _ _ _ _ => true
  | _ => false

/-- Whether a `CreateResult` is a success. -/
def CreateResult.isOk : CreateResult → Bool
  | .ok _ => true
  | _ => false

/-- Whether a `ModifyResult` is a success. -/
def ModifyResult.isOk : ModifyResult → Bool
  | .ok _ _ _ _ => true
  | _ => false

/-! ## Theorems -/

/-- C3: The cancellation-refund computation is tiered by days until
check-in, and the two cancellation call sites use different cutoffs: the
tools `cancel_reservation` refunds in full at ≥ 30 days and half at ≥ 14,
while `BookingService.cancel_reservation` refunds in full at ≥ 14 days and
half at ≥ 7 — so at 20 days before check-in the two call sites return
different refund amounts (55500 vs 111000 cents) for the same stored
reservation. -/
theorem c3_refund_policies_diverge :
    (∀ t d : Int, 30 ≤ d → refundTool t d = (t, 100)) ∧
    (∀ t d : Int, 14 ≤ d → d < 30 → refundTool t d = (Int.fdiv t 2, 50)) ∧
    (∀ t d : Int, d < 14 → refundTool t d = (0, 0)) ∧
    (∀ t d : Int, 14 ≤ d → refundService t d = t) ∧
    (∀ t d : Int, 7 ≤ d → d < 14 → refundService t d = Int.fdiv t 2) ∧
    (∀ t d : Int, d < 7 → refundService t d = 0) ∧
    (cancel_reservation store20 0 "RES-1" none).1 =
      CancelResult.ok 20 50 55500 111000 ∧
    (service_cancel_reservation store20 0 "RES-1" "guest request").1 =
      (true, 111000) ∧
    (55500 : Int) ≠ 111000 := by
  refine ⟨?_, ?_, ?_, ?_, ?_, ?_, by decide, by decide, by decide⟩
  · intro t d h
    simp [refundTool, h]
  · intro t d h1 h2
    have h3 : ¬ (30 ≤ d) := by omega
    simp [refundTool, h3, h1]
  · intro t d h
    have h1 : ¬ (30 ≤ d) := by omega
    have h2 : ¬ (14 ≤ d) := by omega
    simp [refundTool, h1, h2]
  · intro t d h
    simp [refundService, h]
  · intro t d h1 h2
    have h3 : ¬ (14 ≤ d) := by omega
    simp [refundService, h3, h1]
  · intro t d h
    have h1 : ¬ (14 ≤ d) := by omega
    have h2 : ¬ (7 ≤ d) := by omega
    simp [refundService, h1, h2]

/-- Closed instantiation of `c3_refund_policies_diverge` at concrete
totals and day counts. -/
theorem c3_refund_policies_diverge_witness :
    refundTool 111000 35 = (111000, 100) ∧
    refundTool 111000 20 = (55500, 50) ∧
    refundTool 111000 5 = (0, 0) ∧
    refundService 111000 20 = 111000 ∧
    refundService 111000 10 = 55500 ∧
    refundService 111000 3 = 0 := by
  obtain ⟨h1, h2, h3, h4, h5, h6, -, -, -⟩ := c3_refund_policies_diverge
  refine ⟨h1 111000 35 (by decide), ?_, h3 111000 5 (by decide),
    h4 111000 20 (by decide), ?_, h6 111000 3 (by decide)⟩
  · rw [h2 111000 20 (by decide) (by decide)]
    decide
  · rw [h5 111000 10 (by decide) (by decide)]
    decide

/-- C5 counterexample: with no configured seasons, `get_pricing` for a
one-night stay with check-out strictly after check-in does not return a
price breakdown — it rejects the stay for violating the default season's
three-night minimum. -/
theorem c5_counterexample :
    get_pricing [] 0 10 11 =
      PriceResult.errMinimumNights 3 1 "Standard Season" ∧
    (get_pricing [] 0 10 11).isOk = false := by
  decide

/-- C5 (amended): `get_pricing` and `calculate_total` return an error when
`check_out ≤ check_in`; when `check_out > check_in` they resolve the
governing season and reject with `MINIMUM_NIGHTS_NOT_MET` when
`nights = check_out − check_in` is below that season's minimum — minimum
stay IS enforced inside the pricing calculation — and otherwise return the
breakdown with `nights = check_out − check_in`,
`subtotal = nights × nightlyRate` and `total = subtotal + cleaningFee`.
The two tools agree on every input. -/
theorem c5_price_breakdown (seasons : List Pricing)
    (today check_in check_out : Int) :
    (check_out ≤ check_in →
      get_pricing seasons today check_in check_out =
        PriceResult.errInvalidDates) ∧
    (check_in < check_out →
      (check_out - check_in <
          (resolve_pricing seasons today check_in).minimum_nights →
        get_pricing seasons today check_in check_out =
          PriceResult.errMinimumNights
            (resolve_pricing seasons today check_in).minimum_nights
            (check_out - check_in)
            (resolve_pricing seasons today check_in).season_name) ∧
      ((resolve_pricing seasons today check_in).minimum_nights ≤
          check_out - check_in →
        get_pricing seasons today check_in check_out =
          PriceResult.ok (check_out - check_in)
            (resolve_pricing seasons today check_in).season_name
            (resolve_pricing seasons today check_in).nightly_rate
            ((resolve_pricing seasons today check_in).nightly_rate *
              (check_out - check_in))
            (resolve_pricing seasons today check_in).cleaning_fee
            ((resolve_pricing seasons today check_in).nightly_rate *
              (check_out - check_in) +
              (resolve_pricing seasons today check_in).cleaning_fee)
            (resolve_pricing seasons today check_in).minimum_nights)) ∧
    calculate_total seasons today check_in check_out =
      get_pricing seasons today check_in check_out := by
  refine ⟨?_, ?_, rfl⟩
  · intro h
    simp [get_pricing, h]
  · intro h
    have h0 : ¬ (check_out ≤ check_in) := by omega
    constructor
    · intro h1
      simp [get_pricing, h0, h1]
    · intro h1
      have h2 : ¬ (check_out - check_in <
          (resolve_pricing seasons today check_in).minimum_nights) := by omega
      simp [get_pricing, h0, h2]

/-- Closed instantiation of `c5_price_breakdown`: invalid dates, a stay
below the default minimum, and a valid seven-night stay in `seasonHigh`. -/
theorem c5_price_breakdown_witness :
    get_pricing [] 0 11 10 = PriceResult.errInvalidDates ∧
    get_pricing [] 0 10 11 =
      PriceResult.errMinimumNights 3 1 "Standard Season" ∧
    get_pricing [seasonHigh] 0 150 157 =
      PriceResult.ok 7 "High Season" 15000 105000 6000 111000 1 := by
  refine ⟨(c5_price_breakdown [] 0 11 10).1 (by decide), ?_, ?_⟩
  · have h := ((c5_price_breakdown [] 0 10 11).2.1 (by decide)).1 (by decide)
    rw [h]
    decide
  · have h := ((c5_price_breakdown [seasonHigh] 0 150 157).2.1 (by decide)).2
      (by decide)
    rw [h]
    decide

/-- C8 counterexample: with no seasons configured, season resolution at day
100 returns the synthetic default season, whose minimum stay is 3 nights —
not 1 night as claimed. -/
theorem c8_counterexample :
    resolve_pricing [] 0 100 = get_default_pricing 0 ∧
    (resolve_pricing [] 0 100).minimum_nights = 3 ∧
    (resolve_pricing [] 0 100).minimum_nights ≠ 1 := by
  decide

/-- C8 (amended): for every date matched by no active season, season
resolution returns the synthetic default season with the fixed 12000-cent
nightly rate, a one-year span starting today, a 5000-cent cleaning fee —
and a minimum stay of 3 nights. -/
theorem c8_default_season (seasons : List Pricing) (today d : Int)
    (h : ∀ p ∈ seasons, ¬ (p.start_date ≤ d ∧ d ≤ p.end_date)) :
    resolve_pricing seasons today d = get_default_pricing today ∧
    (resolve_pricing seasons today d).nightly_rate = 12000 ∧
    (resolve_pricing seasons today d).start_date = today ∧
    (resolve_pricing seasons today d).end_date = today + 365 ∧
    (resolve_pricing seasons today d).minimum_nights = 3 ∧
    (resolve_pricing seasons today d).cleaning_fee = 5000 := by
  have hfind : get_applicable_pricing seasons d = none := by
    unfold get_applicable_pricing
    apply List.find?_eq_none.mpr
    intro p hp
    simpa using h p hp
  unfold resolve_pricing
  rw [hfind]
  simp [get_default_pricing]

/-- Closed instantiation of `c8_default_season` at day 50, outside
`seasonHigh`. -/
theorem c8_default_season_witness :
    resolve_pricing [seasonHigh] 0 50 = get_default_pricing 0 ∧
    (resolve_pricing [seasonHigh] 0 50).nightly_rate = 12000 ∧
    (resolve_pricing [seasonHigh] 0 50).start_date = 0 ∧
    (resolve_pricing [seasonHigh] 0 50).end_date = 0 + 365 ∧
    (resolve_pricing [seasonHigh] 0 50).minimum_nights = 3 ∧
    (resolve_pricing [seasonHigh] 0 50).cleaning_fee = 5000 :=
  c8_default_season [seasonHigh] 0 50 (by decide)

/-- C7: `BookingService.confirm_reservation` is a conditional update
guarded by the current status being PENDING: under the guard it reports
success and sets the status to CONFIRMED and the payment status to PAID,
leaving every other field, every other reservation and the rest of the
store unchanged; when the guard fails (record absent, or status already
CONFIRMED, CANCELLED or COMPLETED) it reports failure and leaves the store
entirely unchanged. -/
theorem c7_confirm_guard (st : Store) (rid : String) :
    (lookupRes st.reservations rid = none →
      service_confirm_reservation st rid = (false, st)) ∧
    (∀ r, lookupRes st.reservations rid = some r →
      (r.status = ResStatus.pending →
        (service_confirm_reservation st rid).1 = true ∧
        lookupRes (service_confirm_reservation st rid).2.reservations rid =
          some { r with status := .confirmed, payment_status := .paid } ∧
        (∀ id, id ≠ rid →
          lookupRes (service_confirm_reservation st rid).2.reservations id =
            lookupRes st.reservations id) ∧
        (service_confirm_reservation st rid).2.availability =
          st.availability ∧
        (service_confirm_reservation st rid).2.pricing = st.pricing) ∧
      (r.status ≠ ResStatus.pending →
        service_confirm_reservation st rid = (false, st))) := by
  constructor
  · intro h
    simp [service_confirm_reservation, h]
  · intro r hr
    constructor
    · intro hp
      refine ⟨?_, ?_, ?_, ?_, ?_⟩
      · simp [service_confirm_reservation, hr, hp]
      · simp [service_confirm_reservation, hr, hp, lookupRes_putRes]
      · intro id hid
        have hne : ¬ (rid = id) := fun h => hid h.symm
        simp [service_confirm_reservation, hr, hp, lookupRes_putRes, hne]
      · simp [service_confirm_reservation, hr, hp]
      · simp [service_confirm_reservation, hr, hp]
    · intro hp
      simp [service_confirm_reservation, hr, hp]

/-- Closed instantiation of `c7_confirm_guard`: confirming the pending
`resPending20` succeeds and flips it to CONFIRMED/PAID; confirming the
completed `resCompleted` fails and leaves the store unchanged. -/
theorem c7_confirm_guard_witness :
    (service_confirm_reservation storePre "RES-1").1 = true ∧
    lookupRes (service_confirm_reservation storePre "RES-1").2.reservations
      "RES-1" =
      some { resPending20 with status := .confirmed, payment_status := .paid } ∧
    service_confirm_reservation storeCompleted "RES-2" =
      (false, storeCompleted) := by
  obtain ⟨-, h⟩ := c7_confirm_guard storePre "RES-1"
  obtain ⟨hp, -⟩ := h resPending20 (by decide)
  obtain ⟨a, b, -, -, -⟩ := hp (by decide)
  refine ⟨a, b, ?_⟩
  obtain ⟨-, h2⟩ := c7_confirm_guard storeCompleted "RES-2"
  obtain ⟨-, hn⟩ := h2 resCompleted (by decide)
  exact hn (by decide)

/-- C4 counterexample: in `storeSeason` the governing season carries a
15000-cent nightly rate and 6000-cent cleaning fee, and the pricing
operation quotes 81000 cents for the stay — but the successfully created
reservation stores the fixed 12000/5000 rates and a 65000-cent total. -/
theorem c4_counterexample :
    (create_reservation storeSeason "RES-9" "cust-2" 150 155 2 0 none).1 =
      CreateResult.ok resCreated9 ∧
    resCreated9.nightly_rate = 12000 ∧
    (resolve_pricing storeSeason.pricing 0 150).nightly_rate = 15000 ∧
    get_pricing storeSeason.pricing 0 150 155 =
      PriceResult.ok 5 "High Season" 15000 75000 6000 81000 1 ∧
    resCreated9.nightly_rate ≠
      (resolve_pricing storeSeason.pricing 0 150).nightly_rate ∧
    resCreated9.total_amount ≠
      (get_pricing storeSeason.pricing 0 150 155).totalOf := by
  decide

/-- C4 (amended): every reservation successfully created by the tools
`create_reservation` stores the fixed rates of `_get_pricing_for_dates` —
12000 cents per night, 5000 cents cleaning, total 12000·nights + 5000 —
independently of the season catalog (replacing the catalog changes nothing
about the call's result); these amounts agree with the season-based pricing
resolver only when the governing season happens to carry those exact
rates. -/
theorem c4_fixed_pricing (st : Store) (rid cid : String)
    (ci co na nc : Int) (sr : Option String) (r : Reservation)
    (h : (create_reservation st rid cid ci co na nc sr).1 =
      CreateResult.ok r) :
    r.nightly_rate = 12000 ∧ r.cleaning_fee = 5000 ∧
    r.nights = co - ci ∧
    r.total_amount = 12000 * (co - ci) + 5000 ∧
    ∀ L : List Pricing,
      (create_reservation { st with pricing := L } rid cid ci co na nc sr).1 =
        (create_reservation st rid cid ci co na nc sr).1 := by
  simp only [create_reservation, get_pricing_for_dates] at h
  split_ifs at h <;> simp only at h
  obtain rfl := (CreateResult.ok.injEq _ _).mp h
  refine ⟨rfl, rfl, rfl, by norm_num, ?_⟩
  intro L
  simp only [create_reservation]
  split_ifs <;> rfl

/-- Closed instantiation of `c4_fixed_pricing` at the `storeSeason`
creation. -/
theorem c4_fixed_pricing_witness :
    resCreated9.nightly_rate = 12000 ∧ resCreated9.cleaning_fee = 5000 ∧
    resCreated9.nights = 155 - 150 ∧
    resCreated9.total_amount = 12000 * (155 - 150) + 5000 ∧
    (create_reservation { storeSeason with pricing := [] }
        "RES-9" "cust-2" 150 155 2 0 none).1 =
      (create_reservation storeSeason "RES-9" "cust-2" 150 155 2 0 none).1 := by
  have h := c4_fixed_pricing storeSeason "RES-9" "cust-2" 150 155 2 0 none
    resCreated9 (by decide)
  exact ⟨h.1, h.2.1, h.2.2.1, h.2.2.2.1, h.2.2.2.2 []⟩

/-- C6 counterexample: `BookingService.cancel_reservation` on the COMPLETED
reservation `resCompleted` (whose check-in is 30 days away) is not
rejected: it reports success with a full refund and mutates the store. -/
theorem c6_counterexample :
    (service_cancel_reservation storeCompleted 0 "RES-2" "changed plans").1 =
      (true, 10000) ∧
    (service_cancel_reservation storeCompleted 0 "RES-2" "changed plans").2 ≠
      storeCompleted := by
  decide

/-- C6 (amended): the tools `cancel_reservation` rejects every call on a
reservation that is CANCELLED or COMPLETED or whose check-in is on or
before today, leaving the store unchanged — in particular cancelling an
already-cancelled reservation is rejected with no mutation;
`BookingService.cancel_reservation`, by contrast, rejects only the
already-CANCELLED case (also with no mutation) and does not reject
COMPLETED or already-started reservations. -/
theorem c6_cancel_rejections (st : Store) (today : Int) (rid : String)
    (reason : Option String) (sreason : String) (item : Reservation)
    (h : lookupRes st.reservations rid = some item) :
    (item.status = ResStatus.cancelled ∨ item.status = ResStatus.completed ∨
        item.check_in ≤ today →
      (cancel_reservation st today rid reason).2 = st ∧
      (cancel_reservation st today rid reason).1.isOk = false) ∧
    (item.status = ResStatus.cancelled →
      service_cancel_reservation st today rid sreason = ((false, 0), st)) := by
  constructor
  · intro hrej
    by_cases hc : item.status = ResStatus.cancelled
    · constructor <;> simp [cancel_reservation, h, hc, CancelResult.isOk]
    · by_cases hco : item.status = ResStatus.completed
      · constructor <;>
          simp [cancel_reservation, h, hc, hco, CancelResult.isOk]
      · have ht : item.check_in ≤ today := by tauto
        constructor <;>
          simp [cancel_reservation, h, hc, hco, ht, CancelResult.isOk]
  · intro hc
    simp [service_cancel_reservation, h, hc]

/-- Closed instantiation of `c6_cancel_rejections` on the already-cancelled
reservation `resCancelled`. -/
theorem c6_cancel_rejections_witness :
    (cancel_reservation storeCancelled 0 "RES-3" none).2 = storeCancelled ∧
    (cancel_reservation storeCancelled 0 "RES-3" none).1.isOk = false ∧
    service_cancel_reservation storeCancelled 0 "RES-3" "again" =
      ((false, 0), storeCancelled) := by
  have h := c6_cancel_rejections storeCancelled 0 "RES-3" none "again"
    resCancelled (by decide)
  have h1 := h.1 (Or.inl (by decide))
  exact ⟨h1.1, h1.2, h.2 (by decide)⟩

/-- C9: a `modify_reservation` call whose effective check-in and check-out
equal the stored ones (for instance when only guest counts or special
requests are supplied) writes no calendar entry: the availability table is
returned untouched on every path. -/
theorem c9_modify_same_dates_calendar_untouched (st : Store) (rid : String)
    (nci nco nna nnc : Option Int) (nsr : Option String)
    (h : ∀ item, lookupRes st.reservations rid = some item →
      nci.getD item.check_in = item.check_in ∧
      nco.getD item.check_out = item.check_out) :
    (modify_reservation st rid nci nco nna nnc nsr).2.availability =
      st.availability := by
  rcases hres : lookupRes st.reservations rid with - | item
  · simp [modify_reservation, hres]
  · obtain ⟨h1, h2⟩ := h item hres
    simp only [modify_reservation, hres, h1, h2]
    split_ifs <;> simp_all

/-- Closed instantiation of `c9_modify_same_dates_calendar_untouched`: a
guests-only modify on `storeStale` leaves the calendar untouched. -/
theorem c9_modify_same_dates_calendar_untouched_witness :
    (modify_reservation storeStale "RES-1" none none (some 3) none
        none).2.availability = storeStale.availability :=
  c9_modify_same_dates_calendar_untouched storeStale "RES-1" none none
    (some 3) none none (fun _ _ => ⟨rfl, rfl⟩)

/-- C10: `modify_reservation` recomputes the total from the fixed pricing
(12000·nights + 5000 cents) instead of carrying over the stored total:
every successful no-date-change call reports that recomputed total and a
price difference of newTotal − storedTotal, and overwrites `total_amount`
and `nightly_rate` on the record — so whenever the stored total differs
from the formula, a modify that changes no dates still reports a nonzero
price difference. -/
theorem c10_modify_recomputes_total (st : Store) (rid : String)
    (nna nnc : Option Int) (nsr : Option String) (item : Reservation)
    (h : lookupRes st.reservations rid = some item)
    (n nt ot pd : Int) (st' : Store)
    (heq : modify_reservation st rid none none nna nnc nsr =
      (ModifyResult.ok n nt ot pd, st')) :
    nt = 12000 * (item.check_out - item.check_in) + 5000 ∧
    ot = item.total_amount ∧
    pd = nt - item.total_amount ∧
    (item.total_amount ≠ 12000 * (item.check_out - item.check_in) + 5000 →
      pd ≠ 0) ∧
    ∃ item2, lookupRes st'.reservations rid = some item2 ∧
      item2.total_amount = nt ∧ item2.nightly_rate = 12000 ∧
      item2.check_in = item.check_in ∧ item2.check_out = item.check_out := by
  simp only [modify_reservation, h, Option.getD_none, get_pricing_for_dates] at heq
  split_ifs at heq <;>
    simp only [Prod.mk.injEq, ModifyResult.ok.injEq, reduceCtorEq,
      false_and] at heq <;>
    (obtain ⟨⟨h1, h2, h3, h4⟩, hst⟩ := heq
     subst h1
     subst h2
     subst h3
     subst h4
     subst hst
     refine ⟨rfl, rfl, rfl, by intro hne; omega, ?_⟩
     refine ⟨{ item with
         nights := item.check_out - item.check_in
         num_adults := nna.getD item.num_adults
         num_children := nnc.getD item.num_children
         total_amount := 12000 * (item.check_out - item.check_in) + 5000
         nightly_rate := 12000
         special_requests := match nsr with
           | some s => some s
           | none => item.special_requests }, ?_, rfl, rfl, rfl, rfl⟩
     rw [lookupRes_putRes]
     simp)

/-- Closed instantiation of `c10_modify_recomputes_total` on `storeStale`,
whose stored total 111000 differs from the recomputed 89000. -/
theorem c10_modify_recomputes_total_witness :
    (89000 : Int) = 12000 * (resStale.check_out - resStale.check_in) + 5000 ∧
    (-22000 : Int) = 89000 - resStale.total_amount ∧
    ((-22000 : Int)) ≠ 0 := by
  have heq : modify_reservation storeStale "RES-1" none none (some 3) none
      none =
      (ModifyResult.ok 7 89000 111000 (-22000),
        (modify_reservation storeStale "RES-1" none none (some 3) none
          none).2) :=
    Prod.ext_iff.mpr ⟨by decide, rfl⟩
  have h := c10_modify_recomputes_total storeStale "RES-1" (some 3) none none
    resStale (by decide) 7 89000 111000 (-22000) _ heq
  exact ⟨h.1, h.2.2.1, h.2.2.2.1 (by decide)⟩

/-- C1 counterexample: `BookingService.create_reservation` neither submits
the reservation insert inside the atomic batch nor conditions it on id
absence: called with a reservation id that already exists in the store (and
with free dates), it reports success and overwrites the existing record
instead of rejecting the call with nothing created. -/
theorem c1_counterexample :
    lookupRes storePre.reservations "RES-1" = some resPending20 ∧
    (service_create_reservation storePre 0 "RES-1" "cust-2" 10 12 2 0
        none).1 = SvcCreateResult.ok resSvcCreated ∧
    lookupRes (service_create_reservation storePre 0 "RES-1" "cust-2" 10 12 2
        0 none).2.reservations "RES-1" = some resSvcCreated ∧
    resSvcCreated ≠ resPending20 := by
  decide

/-- C1 (amended): in the tools `create_reservation` the reservation insert
(conditioned on no reservation with this id existing) and one conditional
write per date of `[checkIn, checkOut)` (AVAILABLE or absent → BOOKED by
this reservation) form one atomic batch: on failure of any kind — including
a pre-existing reservation id — nothing is written and the store is
returned unchanged, and on success every write lands: the record is
inserted, every stay date is BOOKED by this reservation, and everything
else is untouched.  (`BookingService.create_reservation` does not have this
shape: it claims the dates in an availability-only batch and inserts the
record with a separate unconditional put — see the counterexample.) -/
theorem c1_create_atomic (st : Store) (rid cid : String)
    (ci co na nc : Int) (sr : Option String) :
    ((create_reservation st rid cid ci co na nc sr).1.isOk = false →
      (create_reservation st rid cid ci co na nc sr).2 = st) ∧
    (∀ r0, lookupRes st.reservations rid = some r0 →
      (create_reservation st rid cid ci co na nc sr).1.isOk = false ∧
      (create_reservation st rid cid ci co na nc sr).2 = st) ∧
    (∀ r, (create_reservation st rid cid ci co na nc sr).1 =
        CreateResult.ok r →
      lookupRes (create_reservation st rid cid ci co na nc
        sr).2.reservations rid = some r ∧
      (∀ id, id ≠ rid →
        lookupRes (create_reservation st rid cid ci co na nc
          sr).2.reservations id = lookupRes st.reservations id) ∧
      (∀ d, d ∈ dateRange ci co →
        lookupDate (create_reservation st rid cid ci co na nc
          sr).2.availability d =
          some { status := .booked, reservation_id := some rid }) ∧
      (∀ d, d ∉ dateRange ci co →
        lookupDate (create_reservation st rid cid ci co na nc
          sr).2.availability d = lookupDate st.availability d) ∧
      (create_reservation st rid cid ci co na nc sr).2.pricing =
        st.pricing) := by
  rcases hpair : create_reservation st rid cid ci co na nc sr with ⟨res, st2⟩
  simp only [create_reservation] at hpair
  split_ifs at hpair with hv1 hv2 hv3 hv4 hv5
  · obtain ⟨rfl, rfl⟩ := (Prod.mk.injEq _ _ _ _).mp hpair
    exact ⟨fun _ => rfl, fun r0 _ => ⟨rfl, rfl⟩,
      fun r hr => absurd hr (by simp)⟩
  · obtain ⟨rfl, rfl⟩ := (Prod.mk.injEq _ _ _ _).mp hpair
    exact ⟨fun _ => rfl, fun r0 _ => ⟨rfl, rfl⟩,
      fun r hr => absurd hr (by simp)⟩
  · obtain ⟨rfl, rfl⟩ := (Prod.mk.injEq _ _ _ _).mp hpair
    exact ⟨fun _ => rfl, fun r0 _ => ⟨rfl, rfl⟩,
      fun r hr => absurd hr (by simp)⟩
  · obtain ⟨rfl, rfl⟩ := (Prod.mk.injEq _ _ _ _).mp hpair
    exact ⟨fun _ => rfl, fun r0 _ => ⟨rfl, rfl⟩,
      fun r hr => absurd hr (by simp)⟩
  · obtain ⟨rfl, rfl⟩ := (Prod.mk.injEq _ _ _ _).mp hpair
    obtain ⟨hnone, hall⟩ := hv5
    refine ⟨?_, ?_, ?_⟩
    · intro hfail
      simp [CreateResult.isOk] at hfail
    · intro r0 h0
      rw [h0] at hnone
      simp at hnone
    · intro r hr
      obtain rfl := (CreateResult.ok.injEq _ _).mp hr
      refine ⟨?_, ?_, ?_, ?_, rfl⟩
      · simp [lookupRes_putRes]
      · intro id hid
        have hne : ¬ (rid = id) := fun hx => hid hx.symm
        simp [lookupRes_putRes, hne]
      · intro d hd
        rw [lookupDate_foldl_putDate]
        simp [hd]
      · intro d hd
        rw [lookupDate_foldl_putDate]
        simp [hd]
  · obtain ⟨rfl, rfl⟩ := (Prod.mk.injEq _ _ _ _).mp hpair
    exact ⟨fun _ => rfl, fun r0 _ => ⟨rfl, rfl⟩,
      fun r hr => absurd hr (by simp)⟩

/-- Closed instantiation of `c1_create_atomic`: an id collision on
`storePre` is rejected with the store unchanged, while a successful create
on the empty store lands the record and books exactly the stay dates. -/
theorem c1_create_atomic_witness :
    (create_reservation storePre "RES-1" "cust-2" 10 12 2 0 none).1.isOk =
      false ∧
    (create_reservation storePre "RES-1" "cust-2" 10 12 2 0 none).2 =
      storePre ∧
    lookupRes (create_reservation storeEmpty "RES-7" "cust-3" 0 2 2 0
      none).2.reservations "RES-7" = some resCreated7 ∧
    lookupDate (create_reservation storeEmpty "RES-7" "cust-3" 0 2 2 0
      none).2.availability 0 =
      some { status := .booked, reservation_id := some "RES-7" } ∧
    lookupDate (create_reservation storeEmpty "RES-7" "cust-3" 0 2 2 0
      none).2.availability 5 = lookupDate storeEmpty.availability 5 := by
  have h1 := (c1_create_atomic storePre "RES-1" "cust-2" 10 12 2 0 none).2.1
    resPending20 (by decide)
  have h2 := (c1_create_atomic storeEmpty "RES-7" "cust-3" 0 2 2 0 none).2.2
    resCreated7 (by decide)
  exact ⟨h1.1, h1.2, h2.1, h2.2.2.1 0 (by decide), h2.2.2.2.1 5 (by decide)⟩

/-- C2 counterexample: the release writes of `modify_reservation` are not
conditional on `BOOKED(this reservation)` inside an atomic batch: in
`storeBlocked` day 1 is BLOCKED (owned by nobody), yet moving the stay from
days [0,2) to [2,4) succeeds and unconditionally overwrites day 1 to
AVAILABLE — under the claimed batch, that write's condition would have
failed and the whole batch would have been rejected with day 1 left
BLOCKED and nothing mutated. -/
theorem c2_counterexample :
    lookupDate storeBlocked.availability 1 =
      some { status := .blocked, reservation_id := none } ∧
    (modify_reservation storeBlocked "RES-1" (some 2) (some 4) none none
        none).1 = ModifyResult.ok 2 29000 29000 0 ∧
    lookupDate (modify_reservation storeBlocked "RES-1" (some 2) (some 4)
        none none none).2.availability 1 =
      some { status := .available, reservation_id := none } := by
  decide

/-- C2 (amended): on any rejection `modify_reservation` leaves the store
unchanged, and in particular when some date of `newDates − oldDates` fails
the availability check (its entry exists with a status other than
AVAILABLE) the call is rejected with `DatesUnavailable` and nothing is
mutated.  On success, however, the writes are not the claimed conditional
atomic batch: each date of `oldDates − newDates` is unconditionally
overwritten to AVAILABLE (whether or not it was booked by this
reservation), each date of `newDates − oldDates` is unconditionally
overwritten to BOOKED by this reservation, and dates in the intersection
are untouched. -/
theorem c2_modify_batch (st : Store) (rid : String)
    (nci nco nna nnc : Option Int) (nsr : Option String) (item : Reservation)
    (h : lookupRes st.reservations rid = some item) :
    ((modify_reservation st rid nci nco nna nnc nsr).1.isOk = false →
      (modify_reservation st rid nci nco nna nnc nsr).2 = st) ∧
    (∀ d e, ¬ (item.status = ResStatus.cancelled ∨
        item.status = ResStatus.completed) →
      nci.getD item.check_in < nco.getD item.check_out →
      1 ≤ nna.getD item.num_adults →
      nna.getD item.num_adults + nnc.getD item.num_children ≤ 6 →
      d ∈ dateRange (nci.getD item.check_in) (nco.getD item.check_out) →
      d ∉ dateRange item.check_in item.check_out →
      lookupDate st.availability d = some e →
      e.status ≠ AvailStatus.available →
      (modify_reservation st rid nci nco nna nnc
        nsr).1.isDatesUnavailable = true ∧
      (modify_reservation st rid nci nco nna nnc nsr).2 = st) ∧
    (∀ n nt ot pd st', modify_reservation st rid nci nco nna nnc nsr =
        (ModifyResult.ok n nt ot pd, st') →
      ∀ d, lookupDate st'.availability d =
        if d ∈ dateRange item.check_in item.check_out ∧
            d ∉ dateRange (nci.getD item.check_in)
              (nco.getD item.check_out) then
          some { status := .available, reservation_id := none }
        else if d ∈ dateRange (nci.getD item.check_in)
              (nco.getD item.check_out) ∧
            d ∉ dateRange item.check_in item.check_out then
          some { status := .booked, reservation_id := some rid }
        else lookupDate st.availability d) := by
  refine ⟨?_, ?_, ?_⟩
  · rcases hpair : modify_reservation st rid nci nco nna nnc nsr with
      ⟨res, st2⟩
    intro hfail
    simp only [modify_reservation, h, get_pricing_for_dates] at hpair
    split_ifs at hpair <;>
      (obtain ⟨rfl, rfl⟩ := (Prod.mk.injEq _ _ _ _).mp hpair
       first
         | rfl
         | simp [ModifyResult.isOk] at hfail)
  · intro d e hstat hlt hna hguest hdnew hdold hld hestat
    have hchanging : nci.getD item.check_in ≠ item.check_in ∨
        nco.getD item.check_out ≠ item.check_out := by
      by_contra hcon
      push_neg at hcon
      rw [hcon.1, hcon.2] at hdnew
      exact hdold hdnew
    have hmem : d ∈ unavailableDates st.availability
        ((dateRange (nci.getD item.check_in)
          (nco.getD item.check_out)).filter
          (fun x => decide (x ∉ dateRange item.check_in item.check_out))) := by
      unfold unavailableDates
      rw [List.mem_filter]
      refine ⟨?_, ?_⟩
      · rw [List.mem_filter]
        exact ⟨hdnew, by simpa using hdold⟩
      · rw [hld]
        simpa using hestat
    rcases hpair : modify_reservation st rid nci nco nna nnc nsr with
      ⟨res, st2⟩
    simp only [modify_reservation, h, get_pricing_for_dates] at hpair
    split_ifs at hpair with k1 k2 k3 k4 k5
    · omega
    · omega
    · omega
    · obtain ⟨rfl, rfl⟩ := (Prod.mk.injEq _ _ _ _).mp hpair
      exact ⟨rfl, rfl⟩
    · exact absurd (List.ne_nil_of_mem hmem) k5
    · exact absurd (decide_eq_true hchanging) k4
    · exact absurd (decide_eq_true hchanging) k4
  · intro n nt ot pd st' heq d
    simp only [modify_reservation, h, get_pricing_for_dates] at heq
    split_ifs at heq with k1 k2 k3 k4 k5 k6 <;>
      simp only [Prod.mk.injEq, ModifyResult.ok.injEq, reduceCtorEq,
        false_and] at heq
    · obtain ⟨-, hst⟩ := heq
      subst hst
      rw [lookupDate_foldl_putDate, lookupDate_foldl_putDate]
      by_cases h1 : d ∈ dateRange (nci.getD item.check_in)
          (nco.getD item.check_out) <;>
        by_cases h2 : d ∈ dateRange item.check_in item.check_out <;>
          simp [List.mem_filter, h1, h2]
    · obtain ⟨-, hst⟩ := heq
      subst hst
      simp only [decide_eq_true_eq, not_or, not_not] at k5
      obtain ⟨e1, e2⟩ := k5
      rw [e1, e2]
      simp

/-- Closed instantiation of `c2_modify_batch`: on `storeBusy` the modify
toward the externally-held day 3 is rejected with `DatesUnavailable` and
the store is unchanged; on `storeBlocked` the successful modify releases
day 0 (in `oldDates − newDates`) back to AVAILABLE. -/
theorem c2_modify_batch_witness :
    (modify_reservation storeBusy "RES-1" (some 2) (some 4) none none
      none).1.isDatesUnavailable = true ∧
    (modify_reservation storeBusy "RES-1" (some 2) (some 4) none none
      none).2 = storeBusy ∧
    lookupDate (modify_reservation storeBlocked "RES-1" (some 2) (some 4)
      none none none).2.availability 0 =
      some { status := .available, reservation_id := none } := by
  have h2 := (c2_modify_batch storeBusy "RES-1" (some 2) (some 4) none none
    none resShort (by decide)).2.1 3
    { status := .booked, reservation_id := some "RES-X" }
    (by decide) (by decide) (by decide) (by decide) (by decide) (by decide)
    (by decide) (by decide)
  have h3 := (c2_modify_batch storeBlocked "RES-1" (some 2) (some 4) none
    none none resShort (by decide)).2.2 2 29000 29000 0
    (modify_reservation storeBlocked "RES-1" (some 2) (some 4) none none
      none).2
    (Prod.ext_iff.mpr ⟨by decide, rfl⟩) 0
  refine ⟨h2.1, h2.2, ?_⟩
  rw [h3]
  decide

end Booking
